import Mathlib

/-!
Shallow embedding of the resilient-HTTP-client snippets of the
`javascript-hands-on` repository (the tutorial script
`src/ajax/ajax-complete-guide.js` and the solutions/cheat-sheet documents),
together with proofs settling the specification claims about retry, backoff,
caching, deduplication, auth refresh and error taxonomy.

Conventions of the embedding:
* A settled JS `Error` (or `DOMException`) is a `JsError` carrying its `name`
  and `message`, exactly the two fields the source code inspects.
* A settled `fetch` call either resolves with a `Response` or rejects with a
  `JsError`; `FetchOutcome` is that sum.  A transport is a map from the index
  of the call (how many transport calls happened before) to its outcome.
* `response.json()` is modelled as returning the `body` field of the
  `Response` (the parsed payload); a second `json()` call on the same
  response rejects, as the Fetch specification prescribes (body streams are
  single-read) — this matters only for the sequential-requests challenge.
* JS `Map` objects are association lists with `Map.set`/`Map.get`/
  `Map.delete` modelled by `setKey`/`List.lookup`/`delKey`.
* Timestamps and durations are `Nat` (milliseconds); clocks move forward.
-/

/-- A JavaScript error value, reduced to the two fields the source reads. -/
structure JsError where
  name : String
  message : String
deriving Repr, DecidableEq

/-- A settled HTTP response: status code, status text and parsed body.
The body stands for the value `response.json()` resolves to. -/
structure Response where
  status : Nat
  statusText : String
  body : String
deriving Repr, DecidableEq

/-- The `Response.ok` getter of the Fetch API: status in the range 200–299. -/
def Response.ok (r : Response) : Bool :=
  decide (200 ≤ r.status) && decide (r.status ≤ 299)

deriving instance DecidableEq for Except

/-- Outcome of one underlying `fetch` call: a response, or a rejection. -/
abbrev FetchOutcome := Except JsError Response

/-- JS `String.prototype.includes`: substring containment. -/
def strIncludes (s pat : String) : Bool :=
  decide (pat.toList <:+: s.toList)

/-! ## `fetchWithRetry` of `src/ajax/ajax-complete-guide.js` (section 8)

```js
async function fetchWithRetry(url, options = {}, retries = 3, delay = 1000) {
    for (let i = 0; i < retries; i++) {
        try {
            const response = await fetch(url, options);
            if (!response.ok) { throw new Error(`HTTP ${response.status}`); }
            return await response.json();
        } catch (error) {
            if (i === retries - 1) { throw error; }
            await new Promise(resolve => setTimeout(resolve, delay));
            delay *= 2;
        }
    }
}
```
Note the loop runs `retries` times in total (the parameter counts total
attempts, not extra retries), every failure is retried (including 4xx), and
falling out of the loop (`retries = 0`) resolves with `undefined`. -/

/-- Result of one run of the tutorial-guide `fetchWithRetry`: the settled
value (`Except.ok none` models resolving with `undefined`), the number of
transport calls made, and the list of back-off delays actually waited. -/
structure GuideRun where
  result : Except JsError (Option String)
  calls : Nat
  delays : List Nat
deriving Repr, DecidableEq

/-- Loop body of the guide `fetchWithRetry`.  `fuel` is the number of loop
iterations still allowed (`retries - i`), kept separate so the recursion is
structural; `i`, `calls`, `delay`, `ds` mirror the loop variables. -/
def guideRetryGo (transport : Nat → FetchOutcome) (retries : Nat) :
    Nat → Nat → Nat → Nat → List Nat → GuideRun
  | 0, _, calls, _, ds => ⟨Except.ok none, calls, ds⟩
  | fuel + 1, i, calls, delay, ds =>
    let attemptRes : Except JsError String :=
      match transport calls with
      | Except.error e => Except.error e
      | Except.ok resp =>
        if resp.ok then Except.ok resp.body
        else Except.error ⟨"Error", "HTTP " ++ toString resp.status⟩
    match attemptRes with
    | Except.ok v => ⟨Except.ok (some v), calls + 1, ds⟩
    | Except.error err =>
      if i = retries - 1 then ⟨Except.error err, calls + 1, ds⟩
      else guideRetryGo transport retries fuel (i + 1) (calls + 1) (delay * 2) (ds ++ [delay])

/-- The guide `fetchWithRetry`, with the transport injected; `retries` and
`delay` are the source parameters (defaults 3 and 1000). -/
def fetchWithRetryGuide (transport : Nat → FetchOutcome) (retries delay : Nat) : GuideRun :=
  guideRetryGo transport retries retries 0 0 delay []

/-! ## `fetchWithRetry` of the challenge-solutions document (Solution 2.3)

```js
async function fetchWithRetry(url, options = {}, maxRetries = 3) {
  let lastError;
  for (let attempt = 0; attempt <= maxRetries; attempt++) {
    try {
      const response = await fetch(url, options);
      if (!response.ok) {
        if (response.status >= 400 && response.status < 500) {
          throw new Error(`Client error ${response.status}: ${response.statusText}`);
        }
        throw new Error(`Server error ${response.status}: ${response.statusText}`);
      }
      return await response.json();
    } catch (error) {
      lastError = error;
      if (error.message.includes('Client error') ||
          (error.name !== 'TypeError' && !error.message.includes('Server error'))) {
        throw error;
      }
      if (attempt === maxRetries) {
        throw new Error(`Failed after ${maxRetries + 1} attempts: ${error.message}`);
      }
      const delay = Math.pow(2, attempt) * 1000;
      await new Promise(resolve => setTimeout(resolve, delay));
    }
  }
  throw lastError;
}
```
-/

/-- Result of one run of the solutions-document `fetchWithRetry`. -/
structure P4Run where
  result : Except JsError String
  calls : Nat
  delays : List Nat
deriving Repr, DecidableEq

/-- Message of the error thrown for a 4xx response. -/
def clientErrMsg (status : Nat) (text : String) : String :=
  "Client error " ++ toString status ++ ": " ++ text

/-- Message of the error thrown for a non-ok, non-4xx response. -/
def serverErrMsg (status : Nat) (text : String) : String :=
  "Server error " ++ toString status ++ ": " ++ text

/-- The rethrow-immediately test of the solutions `fetchWithRetry` catch
block (true means the error is not retryable). -/
def p4Rethrow (e : JsError) : Bool :=
  strIncludes e.message "Client error" ||
    (!(e.name == "TypeError") && !strIncludes e.message "Server error")

/-- Error thrown once all attempts are exhausted. -/
def failedAfterErr (maxRetries : Nat) (e : JsError) : JsError :=
  ⟨"Error", "Failed after " ++ toString (maxRetries + 1) ++ " attempts: " ++ e.message⟩

/-- Loop body of the solutions `fetchWithRetry`; `fuel` is
`maxRetries + 1 - attempt`, the iterations still allowed.  The `fuel = 0`
case is the `throw lastError` after the loop (unreachable from the entry
point, which supplies `fuel = maxRetries + 1`). -/
def p4RetryGo (transport : Nat → FetchOutcome) (maxRetries : Nat) :
    Nat → Nat → Nat → List Nat → Option JsError → P4Run
  | 0, _, calls, ds, lastE => ⟨Except.error (lastE.getD ⟨"Error", ""⟩), calls, ds⟩
  | fuel + 1, attempt, calls, ds, _ =>
    let attemptRes : Except JsError String :=
      match transport calls with
      | Except.error e => Except.error e
      | Except.ok resp =>
        if resp.ok then Except.ok resp.body
        else if 400 ≤ resp.status && resp.status < 500 then
          Except.error ⟨"Error", clientErrMsg resp.status resp.statusText⟩
        else
          Except.error ⟨"Error", serverErrMsg resp.status resp.statusText⟩
    match attemptRes with
    | Except.ok v => ⟨Except.ok v, calls + 1, ds⟩
    | Except.error err =>
      if p4Rethrow err then ⟨Except.error err, calls + 1, ds⟩
      else if attempt = maxRetries then
        ⟨Except.error (failedAfterErr maxRetries err), calls + 1, ds⟩
      else
        p4RetryGo transport maxRetries fuel (attempt + 1) (calls + 1)
          (ds ++ [2 ^ attempt * 1000]) (some err)

/-- The solutions-document `fetchWithRetry`, with the transport injected;
`maxRetries` is the source parameter (default 3). -/
def fetchWithRetryP4 (transport : Nat → FetchOutcome) (maxRetries : Nat) : P4Run :=
  p4RetryGo transport maxRetries (maxRetries + 1) 0 0 [] none

/-- Transport that always answers with the same response. -/
def constTransport (r : Response) : Nat → FetchOutcome := fun _ => Except.ok r

/-- The 500-equivalent response used in the retry-bound claims. -/
def resp500 : Response := ⟨500, "Internal Server Error", ""⟩

/-- The 404 response used in the no-retry-on-4xx claims. -/
def resp404 : Response := ⟨404, "Not Found", ""⟩

/-! ## JS `Map` model

A JS `Map` with string keys is an association list holding at most one entry
per key; `Map.set` replaces in place or appends, `Map.get` is `List.lookup`,
`Map.delete` erases the entry with the given key. -/

/-- `Map.set`: replace the entry for `k` in place if present, else append. -/
def setKey {β : Type} (m : List (String × β)) (k : String) (v : β) : List (String × β) :=
  if (m.lookup k).isSome then
    m.map fun p => if p.1 == k then (k, v) else p
  else m ++ [(k, v)]

/-- `Map.delete`: remove the entry with key `k`.  A JS `Map` holds at most
one entry per key, so removing every match models deleting that entry. -/
def delKey {β : Type} (m : List (String × β)) (k : String) : List (String × β) :=
  m.filter fun p => !(p.1 == k)

/-! ## `RequestCache` of `src/ajax/ajax-complete-guide.js` (section 10)

```js
class RequestCache {
    constructor(ttl = 60000) { this.cache = new Map(); this.ttl = ttl; }
    async fetch(url, options = {}) {
        const cacheKey = `${url}${JSON.stringify(options)}`;
        const cached = this.cache.get(cacheKey);
        if (cached && Date.now() - cached.timestamp < this.ttl) { return cached.data; }
        const response = await fetch(url, options);
        const data = await response.json();
        this.cache.set(cacheKey, { data, timestamp: Date.now() });
        return data;
    }
    clear() { this.cache.clear(); }
    delete(url) { this.cache.delete(url); }
}
```
`optionsJson` below stands for `JSON.stringify(options)`; for the default
empty options object it is the two-character string `"\x7b\x7d"` (`JSON.stringify`
of an object value is never the empty string). -/

/-- One stored cache record: parsed data plus the store-time timestamp. -/
structure CacheEntry where
  data : String
  timestamp : Nat
deriving Repr, DecidableEq

/-- State of a `RequestCache` instance. -/
structure RequestCache where
  cache : List (String × CacheEntry)
  ttl : Nat
deriving Repr, DecidableEq

/-- The composite key `RequestCache.fetch` stores under. -/
def RequestCache.cacheKey (url optionsJson : String) : String :=
  url ++ optionsJson

/-- One call of `RequestCache.fetch`.  `now` is `Date.now()` for this call and
`transport` is what the underlying `fetch` would settle to if invoked.
Returns the new state, the settled value, and whether the transport was
invoked.  Note the expired entry is never deleted: on a miss the code goes
straight to the network and only overwrites the entry after a successful
fetch. -/
def RequestCache.fetchStep (c : RequestCache) (url optionsJson : String) (now : Nat)
    (transport : FetchOutcome) : RequestCache × Except JsError String × Bool :=
  let key := RequestCache.cacheKey url optionsJson
  match c.cache.lookup key with
  | some cached =>
    if now - cached.timestamp < c.ttl then (c, Except.ok cached.data, false)
    else
      match transport with
      | Except.error e => (c, Except.error e, true)
      | Except.ok resp =>
        ({ c with cache := setKey c.cache key ⟨resp.body, now⟩ }, Except.ok resp.body, true)
  | none =>
    match transport with
    | Except.error e => (c, Except.error e, true)
    | Except.ok resp =>
      ({ c with cache := setKey c.cache key ⟨resp.body, now⟩ }, Except.ok resp.body, true)

/-- The `delete(url)` method: removes the bare `url` key, not the composite
`url + JSON.stringify(options)` key that `fetch` stores under. -/
def RequestCache.del (c : RequestCache) (url : String) : RequestCache :=
  { c with cache := delKey c.cache url }

/-! ## `CachedFetch` of the challenge-solutions document (Solution 2.2)

```js
class CachedFetch {
  constructor(ttl = 60000) { this.ttl = ttl; this.cache = new Map(); }
  _getCacheKey(url, options = {}) {
    const method = options.method || 'GET';
    const body = options.body || '';
    return `${method}:${url}:${body}`;
  }
  _isCacheValid(entry) { return Date.now() - entry.timestamp < this.ttl; }
  async fetch(url, options = {}) {
    const cacheKey = this._getCacheKey(url, options);
    if (this.cache.has(cacheKey)) {
      const entry = this.cache.get(cacheKey);
      if (this._isCacheValid(entry)) { return entry.data; }
      else { this.cache.delete(cacheKey); }
    }
    const response = await fetch(url, options);
    if (!response.ok) { throw new Error(`HTTP ${response.status}: ${response.statusText}`); }
    const data = await response.json();
    this.cache.set(cacheKey, { data, timestamp: Date.now() });
    return data;
  }
  clearKey(url, options = {}) { this.cache.delete(this._getCacheKey(url, options)); }
}
```
-/

/-- Request options consulted by `CachedFetch._getCacheKey`; `none` models an
absent (falsy) field, defaulted by `||`. -/
structure FetchOptions where
  method : Option String
  body : Option String
deriving Repr, DecidableEq

/-- State of a `CachedFetch` instance. -/
structure CachedFetch where
  cache : List (String × CacheEntry)
  ttl : Nat
deriving Repr, DecidableEq

/-- `CachedFetch._getCacheKey`. -/
def CachedFetch.getCacheKey (url : String) (options : FetchOptions) : String :=
  (options.method.getD "GET") ++ ":" ++ url ++ ":" ++ (options.body.getD "")

/-- `CachedFetch._isCacheValid`, with `Date.now()` passed explicitly. -/
def CachedFetch.isCacheValid (c : CachedFetch) (now : Nat) (entry : CacheEntry) : Bool :=
  decide (now - entry.timestamp < c.ttl)

/-- One call of `CachedFetch.fetch`.  On an expired hit the entry is deleted
(lazy eviction) before the fresh transport call; a non-ok response throws and
is not cached. -/
def CachedFetch.fetchStep (c : CachedFetch) (url : String) (options : FetchOptions) (now : Nat)
    (transport : FetchOutcome) : CachedFetch × Except JsError String × Bool :=
  let key := CachedFetch.getCacheKey url options
  let afterHit : CachedFetch :=
    match c.cache.lookup key with
    | some entry =>
      if c.isCacheValid now entry then c
      else { c with cache := delKey c.cache key }
    | none => c
  match c.cache.lookup key with
  | some entry =>
    if c.isCacheValid now entry then (c, Except.ok entry.data, false)
    else
      match transport with
      | Except.error e => (afterHit, Except.error e, true)
      | Except.ok resp =>
        if resp.ok then
          ({ afterHit with cache := setKey afterHit.cache key ⟨resp.body, now⟩ },
            Except.ok resp.body, true)
        else
          (afterHit, Except.error ⟨"Error",
            "HTTP " ++ toString resp.status ++ ": " ++ resp.statusText⟩, true)
  | none =>
    match transport with
    | Except.error e => (afterHit, Except.error e, true)
    | Except.ok resp =>
      if resp.ok then
        ({ afterHit with cache := setKey afterHit.cache key ⟨resp.body, now⟩ },
          Except.ok resp.body, true)
      else
        (afterHit, Except.error ⟨"Error",
          "HTTP " ++ toString resp.status ++ ": " ++ resp.statusText⟩, true)

/-- State of a fresh `RequestCache` with the given `ttl` after one successful
`fetch(url, options)` at time `t0`, where `oj` is `JSON.stringify(options)`. -/
def reqCacheAfterStore (ttl t0 : Nat) (url oj : String) (resp : Response) : RequestCache :=
  (RequestCache.fetchStep ⟨[], ttl⟩ url oj t0 (Except.ok resp)).1

/-! ## `AuthAPI` of the challenge-solutions document (Solution 4.1)

```js
async _request(endpoint, options = {}) {
    if (!this.token) { this.token = localStorage.getItem('auth_token'); }
    const headers = { 'Content-Type': 'application/json', ...options.headers };
    if (this.token) { headers['Authorization'] = `Bearer ${this.token}`; }
    const response = await fetch(`${this.baseURL}${endpoint}`, { ...options, headers });
    if (response.status === 401) {
        await this._refreshToken();
        return this._request(endpoint, options);   // Retry request with new token
    }
    if (!response.ok) { throw new Error(`HTTP ${response.status}: ${response.statusText}`); }
    return response.json();
}

async _refreshToken() {
    if (this.refreshPromise) { return this.refreshPromise; }
    this.refreshPromise = (async () => {
        try {
            const response = await fetch(`${this.baseURL}/auth/refresh`, ...);
            if (!response.ok) { throw new Error('Token refresh failed'); }
            const { token } = await response.json();
            this.token = token;
            localStorage.setItem('auth_token', token);
            return token;
        } catch (error) { this.logout(); throw error; }
        finally { this.refreshPromise = null; }
    })();
    return this.refreshPromise;
}

logout() { this.token = null; localStorage.removeItem('auth_token'); }
```

Concurrency model: a single-threaded event loop.  `_refreshToken`'s check of
`this.refreshPromise` and, when absent, starting the refresh fetch and
assigning the promise all happen with no intervening `await`, so they form
one atomic step (`refreshEnter`).  The promise's body past its first `await`
runs when the refresh fetch settles (`refreshSettle`).  A caller's outcome is
the settled value of the promise it holds. -/

/-- The `AuthAPI` instance state plus the event-loop bookkeeping for its
shared refresh promise: `refreshPromise` holds the id of the in-flight
refresh promise if any, `nextPromiseId` numbers promises, and
`refreshFetches` counts refresh fetches started. -/
structure AuthSession where
  token : Option String
  storage : Option String
  refreshPromise : Option Nat
  nextPromiseId : Nat
  refreshFetches : Nat
deriving Repr, DecidableEq

/-- `logout()`: clear the in-memory token and the persisted one. -/
def AuthSession.logout (s : AuthSession) : AuthSession :=
  { s with token := none, storage := none }

/-- The synchronous entry of `_refreshToken`: join the in-flight refresh
promise if one exists, otherwise start the refresh fetch, record the new
promise and return its id. -/
def refreshEnter (s : AuthSession) : AuthSession × Nat :=
  match s.refreshPromise with
  | some p => (s, p)
  | none =>
    ({ s with
        refreshPromise := some s.nextPromiseId,
        nextPromiseId := s.nextPromiseId + 1,
        refreshFetches := s.refreshFetches + 1 }, s.nextPromiseId)

/-- Settlement of the refresh promise's body once the refresh fetch settles:
on an ok response the new token (`outcome`'s body) is stored in memory and
storage and returned; a non-ok response throws `Token refresh failed`; any
thrown error triggers `logout()` and is rethrown; the `finally` clears
`refreshPromise` on every path. -/
def refreshSettle (s : AuthSession) (outcome : FetchOutcome) :
    AuthSession × Except JsError String :=
  match outcome with
  | Except.ok resp =>
    if resp.ok then
      ({ s with token := some resp.body, storage := some resp.body, refreshPromise := none },
        Except.ok resp.body)
    else
      ({ s.logout with refreshPromise := none },
        Except.error ⟨"Error", "Token refresh failed"⟩)
  | Except.error e => ({ s.logout with refreshPromise := none }, Except.error e)

/-- A full sequential `await this._refreshToken()` inside one logical
`_request` call: enter (no refresh can be pending between the awaits of a
single sequential call) and settle with the given refresh-fetch outcome. -/
def refreshTokenRun (s : AuthSession) (outcome : FetchOutcome) :
    AuthSession × Except JsError String :=
  refreshSettle (refreshEnter s).1 outcome

/-- `refreshEnter` iterated by `n` concurrent callers that all run before the
refresh fetch settles; returns the final state and each caller's promise
id. -/
def refreshEnterN : Nat → AuthSession → AuthSession × List Nat
  | 0, s => (s, [])
  | n + 1, s =>
    let e := refreshEnter s
    let rest := refreshEnterN n e.1
    (rest.1, e.2 :: rest.2)

/-- Terminal outcome of one logical `AuthAPI._request` call. -/
inductive AuthResult
  | ok (body : String)
  | httpError (status : Nat) (statusText : String)
  | jsError (e : JsError)
deriving Repr, DecidableEq

/-- The token `_request` attaches: the in-memory one, else the stored one
(`if (!this.token) this.token = localStorage.getItem('auth_token')`). -/
def loadedToken (s : AuthSession) : Option String :=
  match s.token with
  | some t => some t
  | none => s.storage

/-- Result of running `_request`: final session state, terminal outcome
(`none` when the 401-refresh recursion exceeds the fuel, i.e. does not
terminate), and the `Authorization` token attached to each dispatch. -/
structure AuthRun where
  finalState : AuthSession
  result : Option AuthResult
  dispatches : List (Option String)
deriving Repr, DecidableEq

/-- One logical `_request` call.  `transport i` is the outcome of the
`i`-th request dispatch, `refreshT j` the outcome of the `j`-th refresh
fetch.  Each iteration loads the token from storage if absent, attaches it,
dispatches, and on a 401 refreshes then re-enters (`return this._request`);
the recursion in the source is unbounded, so it is modelled with fuel. -/
def requestGo (transport : Nat → FetchOutcome) (refreshT : Nat → FetchOutcome) :
    Nat → AuthSession → List (Option String) → AuthRun
  | 0, s, ds => ⟨s, none, ds⟩
  | fuel + 1, s, ds =>
    let tok : Option String := loadedToken s
    let s1 : AuthSession := { s with token := tok }
    let ds1 := ds ++ [tok]
    match transport ds.length with
    | Except.error e => ⟨s1, some (AuthResult.jsError e), ds1⟩
    | Except.ok resp =>
      if resp.status = 401 then
        let refreshed := refreshTokenRun s1 (refreshT s1.refreshFetches)
        match refreshed.2 with
        | Except.ok _ => requestGo transport refreshT fuel refreshed.1 ds1
        | Except.error e => ⟨refreshed.1, some (AuthResult.jsError e), ds1⟩
      else if resp.ok then ⟨s1, some (AuthResult.ok resp.body), ds1⟩
      else ⟨s1, some (AuthResult.httpError resp.status resp.statusText), ds1⟩

/-- Entry point of one logical `AuthAPI._request` call. -/
def authRequest (transport refreshT : Nat → FetchOutcome) (fuel : Nat)
    (s : AuthSession) : AuthRun :=
  requestGo transport refreshT fuel s []

/-- A 401 response as dispatched by the server. -/
def resp401 : Response := ⟨401, "Unauthorized", ""⟩

/-- Transport trace for the C7 counterexample: two 401s, then success. -/
def c7transport : Nat → FetchOutcome
  | 0 => Except.ok resp401
  | 1 => Except.ok resp401
  | _ => Except.ok ⟨200, "OK", "v"⟩

/-- Refresh trace for the C7 counterexample: both refreshes succeed, each
delivering a fresh token. -/
def c7refresh : Nat → FetchOutcome
  | 0 => Except.ok ⟨200, "OK", "T1"⟩
  | _ => Except.ok ⟨200, "OK", "T2"⟩

/-- Initial session for the C7 counterexample: logged in with token `T0`. -/
def c7session : AuthSession := ⟨some "T0", some "T0", none, 0, 0⟩

/-- Transport trace for the C7 witness: one 401, then success. -/
def c7transportB : Nat → FetchOutcome
  | 0 => Except.ok resp401
  | _ => Except.ok ⟨200, "OK", "v"⟩

/-! ## In-Flight Deduplicator (spec §4.2)

The challenges document only poses `createDedupedFetch` as an exercise — its
body is the comment `// Your code here` — so there is no source
implementation; the registry below follows the spec's contract for
`joinOrStart(fingerprint, startFn)`. -/

/-- State of the deduplication registry: the pending map from fingerprint to
the id of the shared in-flight promise, a counter to number promises, and the
count of `startFn` invocations (underlying transport calls started). -/
structure DedupRegistry where
  pending : List (String × Nat)
  nextId : Nat
  startCalls : Nat
deriving Repr, DecidableEq

/-- Modelled from the spec: `createDedupedFetch` in the challenges document is
an unimplemented template, so this follows §4.2 of the spec — if an operation
for the fingerprint is already pending the caller is attached to it,
otherwise `startFn` is invoked exactly once and the new pending operation is
recorded; the returned id names the shared promise whose outcome the caller
will receive. -/
def joinOrStart (r : DedupRegistry) (fp : String) : DedupRegistry × Nat :=
  match r.pending.lookup fp with
  | some p => (r, p)
  | none =>
    ({ r with
        pending := setKey r.pending fp r.nextId,
        nextId := r.nextId + 1,
        startCalls := r.startCalls + 1 }, r.nextId)

/-- Modelled from the spec: the entry is removed immediately after the shared
operation settles (success or failure), so a later identical call starts
fresh. -/
def dedupSettle (r : DedupRegistry) (fp : String) : DedupRegistry :=
  { r with pending := delKey r.pending fp }

/-- `joinOrStart` iterated by `n` concurrent callers with the same
fingerprint, all arriving before the shared operation settles. -/
def joinOrStartN : Nat → DedupRegistry → String → DedupRegistry × List Nat
  | 0, r, _ => (r, [])
  | n + 1, r, fp =>
    let e := joinOrStart r fp
    let rest := joinOrStartN n e.1 fp
    (rest.1, e.2 :: rest.2)

/-! ## Timeout and cancellation (`fetchWithTimeout`, `CancellableRequest`,
`safeFetch`)

```js
// ajax-complete-guide.js, section 7
async function fetchWithTimeout(url, timeout = 5000) {
    const controller = new AbortController();
    const timeoutId = setTimeout(() => controller.abort(), timeout);
    try {
        const response = await fetch(url, { signal: controller.signal });
        clearTimeout(timeoutId);
        return await response.json();
    } catch (error) {
        if (error.name === 'AbortError') { console.error('Request timeout'); }
        throw error;
    }
}

// ajax-complete-guide.js, section 7 (CancellableRequest.fetch catch block)
catch (error) {
    if (error.name === 'AbortError') { return null; }
    throw error;
}

// solutions document, Solution 1.1
async function safeFetch(url, options = {}) {
  const controller = new AbortController();
  const timeoutId = setTimeout(() => controller.abort(), 5000);
  try {
    const response = await fetch(url, { ...options, signal: controller.signal });
    clearTimeout(timeoutId);
    if (!response.ok) {
      throw new Error(`HTTP Error ${response.status}: ${response.statusText}`);
    }
    return await response.json();
  } catch (error) {
    clearTimeout(timeoutId);
    if (error.name === 'AbortError') { throw new Error('Request timeout after 5 seconds'); }
    throw error;
  }
}
```
When an `AbortController` aborts a fetch — whether the abort was fired by a
timer or by a caller — the fetch rejects with the same `AbortError`
`DOMException`; `abortError` below is that rejection value. -/

/-- The `AbortError` rejection an aborted fetch settles with, identical for
timer-fired and caller-initiated aborts. -/
def abortError : JsError :=
  ⟨"AbortError", "The user aborted a request."⟩

/-- One run of the guide `fetchWithTimeout`, given the settled outcome of the
raced fetch (an abort, timer-fired or otherwise, appears as
`Except.error abortError`).  The catch block only logs on `AbortError` and
rethrows every error unchanged; a non-ok response is not checked, so its body
is returned as a success. -/
def fetchWithTimeout (outcome : FetchOutcome) : Except JsError String :=
  match outcome with
  | Except.error e => Except.error e
  | Except.ok resp => Except.ok resp.body

/-- One run of the guide `CancellableRequest.fetch` body, given the settled
fetch outcome: a caller-initiated abort (`AbortError`) resolves with `null`
(`Except.ok none`); other errors are rethrown. -/
def cancellableFetch (outcome : FetchOutcome) : Except JsError (Option String) :=
  match outcome with
  | Except.error e => if e.name == "AbortError" then Except.ok none else Except.error e
  | Except.ok resp => Except.ok (some resp.body)

/-- One run of the solutions-document `safeFetch`, given the settled fetch
outcome.  Its internal controller's signal overrides any caller-supplied one,
so every `AbortError` is the timeout timer and is converted into the
dedicated timeout error. -/
def safeFetch (outcome : FetchOutcome) : Except JsError String :=
  match outcome with
  | Except.error e =>
    if e.name == "AbortError" then
      Except.error ⟨"Error", "Request timeout after 5 seconds"⟩
    else Except.error e
  | Except.ok resp =>
    if resp.ok then Except.ok resp.body
    else Except.error ⟨"Error",
      "HTTP Error " ++ toString resp.status ++ ": " ++ resp.statusText⟩

/-! ## Sequential dependent requests (`fetchUserPostComments`)

The challenges document poses the exercise with a filled-in attempt whose
step 2 reads

```js
const postsResponse = await fetch(`.../posts?userId=${user.id}`);
if (!postsResponse.ok) { throw new Error('Failed to fetch posts'); }
const posts = await userResponse.json();   // stale variable: reads userResponse again
```

while the solutions document's reference implementation reads
`await postsResponse.json()`.  A fetch `Response` body is single-read: a
second `json()` on `userResponse` rejects with a `TypeError`. -/

/-- The three endpoint outcomes one `fetchUserPostComments(userId)` run can
observe, in dispatch order. -/
structure Endpoints where
  userR : FetchOutcome
  postsR : FetchOutcome
  commentsR : FetchOutcome
deriving Repr, DecidableEq

/-- The `{ user, posts, comments }` record both variants aim to return. -/
structure UPC where
  user : String
  posts : String
  comments : String
deriving Repr, DecidableEq

/-- The `TypeError` a second `json()` call on a consumed response body
rejects with. -/
def bodyConsumedError : JsError :=
  ⟨"TypeError", "Failed to execute json on Response: body stream already read"⟩

/-- The wrapping applied by both variants' catch block:
`throw new Error("Sequential fetch failed: " + error.message)`. -/
def seqFail (msg : String) : JsError :=
  ⟨"Error", "Sequential fetch failed: " ++ msg⟩

/-- The challenge-template `fetchUserPostComments`: its `posts` value is
produced by a second `userResponse.json()` call, which rejects because that
body was already consumed in step 1, so every run that passes the posts-ok
check lands in the catch block. -/
def fetchUserPostCommentsTemplate (env : Endpoints) : Except JsError UPC :=
  match env.userR with
  | Except.error e => Except.error (seqFail e.message)
  | Except.ok ur =>
    if !ur.ok then Except.error (seqFail "Failed to fetch user")
    else
      match env.postsR with
      | Except.error e => Except.error (seqFail e.message)
      | Except.ok pr =>
        if !pr.ok then Except.error (seqFail "Failed to fetch posts")
        else Except.error (seqFail bodyConsumedError.message)

/-- The reference solution: `posts` parses `postsResponse`; an empty posts
list (modelled as the parsed value `"[]"`) short-circuits with empty
comments, otherwise the comments of the first post are fetched. -/
def fetchUserPostCommentsSolution (env : Endpoints) : Except JsError UPC :=
  match env.userR with
  | Except.error e => Except.error (seqFail e.message)
  | Except.ok ur =>
    if !ur.ok then Except.error (seqFail "Failed to fetch user")
    else
      match env.postsR with
      | Except.error e => Except.error (seqFail e.message)
      | Except.ok pr =>
        if !pr.ok then Except.error (seqFail "Failed to fetch posts")
        else if pr.body == "[]" then Except.ok ⟨ur.body, pr.body, "[]"⟩
        else
          match env.commentsR with
          | Except.error e => Except.error (seqFail e.message)
          | Except.ok cr =>
            if !cr.ok then Except.error (seqFail "Failed to fetch comments")
            else Except.ok ⟨ur.body, pr.body, cr.body⟩

/-- Endpoint outcomes for the C9 witness: all three fetches succeed. -/
def c9env : Endpoints :=
  ⟨Except.ok ⟨200, "OK", "u1"⟩, Except.ok ⟨200, "OK", "p1"⟩, Except.ok ⟨200, "OK", "c1"⟩⟩

lemma guideRetryGo_constFail (resp : Response) (h : resp.ok = false) (r : Nat) :
    ∀ fuel i calls delay ds, 1 ≤ fuel → i + fuel = r →
      guideRetryGo (constTransport resp) r fuel i calls delay ds =
        ⟨Except.error ⟨"Error", "HTTP " ++ toString resp.status⟩, calls + fuel,
          ds ++ (List.range (fuel - 1)).map fun n => delay * 2 ^ n⟩ := by
  intro fuel
  induction fuel with
  | zero => intro i calls delay ds h1 _; omega
  | succ k ih =>
    intro i calls delay ds _ hir
    rw [guideRetryGo]
    simp only [constTransport, h, Bool.false_eq_true, if_false]
    match k, ih with
    | 0, _ =>
      have hi : i = r - 1 := by omega
      simp [hi]
    | k' + 1, ih =>
      have hi : ¬ (i = r - 1) := by omega
      simp only [hi, if_false]
      rw [ih (i + 1) (calls + 1) (delay * 2) (ds ++ [delay]) (by omega) (by omega)]
      have harith : calls + 1 + (k' + 1) = calls + (k' + 1 + 1) := by omega
      have hds : (ds ++ [delay]) ++ (List.range ((k' + 1) - 1)).map (fun n => delay * 2 * 2 ^ n)
          = ds ++ (List.range ((k' + 1 + 1) - 1)).map (fun n => delay * 2 ^ n) := by
        rw [List.append_assoc]
        congr 1
        rw [show (k' + 1 + 1) - 1 = k' + 1 from rfl, show (k' + 1) - 1 = k' from rfl,
          List.range_succ_eq_map, List.map_cons, List.map_map, List.singleton_append]
        congr 1
        · simp
        · congr 1
          funext n
          simp [Function.comp, pow_succ]
          ring
      rw [GuideRun.mk.injEq]
      exact ⟨rfl, harith, hds⟩

lemma p4RetryGo_constServer (resp : Response) (h1 : resp.ok = false)
    (h2 : (decide (400 ≤ resp.status) && decide (resp.status < 500)) = false)
    (h3 : p4Rethrow ⟨"Error", serverErrMsg resp.status resp.statusText⟩ = false)
    (N : Nat) :
    ∀ fuel attempt calls ds lastE, attempt ≤ N → attempt + fuel = N + 1 →
      p4RetryGo (constTransport resp) N fuel attempt calls ds lastE =
        ⟨Except.error (failedAfterErr N ⟨"Error", serverErrMsg resp.status resp.statusText⟩),
          calls + fuel,
          ds ++ (List.range' attempt (fuel - 1)).map fun a => 2 ^ a * 1000⟩ := by
  intro fuel
  induction fuel with
  | zero => intro attempt calls ds lastE hle hsum; omega
  | succ k ih =>
    intro attempt calls ds lastE hle hsum
    rw [p4RetryGo]
    simp only [constTransport, h1, Bool.false_eq_true, if_false, h2, h3]
    match k, ih with
    | 0, _ =>
      have ha : attempt = N := by omega
      simp [ha]
    | k' + 1, ih =>
      have ha : ¬ (attempt = N) := by omega
      simp only [ha, if_false]
      rw [ih (attempt + 1) (calls + 1) (ds ++ [2 ^ attempt * 1000]) (some _) (by omega) (by omega)]
      have harith : calls + 1 + (k' + 1) = calls + (k' + 1 + 1) := by omega
      have hds : (ds ++ [2 ^ attempt * 1000]) ++
            (List.range' (attempt + 1) ((k' + 1) - 1)).map (fun a => 2 ^ a * 1000)
          = ds ++ (List.range' attempt ((k' + 1 + 1) - 1)).map (fun a => 2 ^ a * 1000) := by
        rw [List.append_assoc]
        congr 1
      rw [P4Run.mk.injEq]
      exact ⟨rfl, harith, hds⟩

lemma resp500_ok : resp500.ok = false := by decide
lemma resp500_cls : (decide (400 ≤ resp500.status) && decide (resp500.status < 500)) = false := by decide
lemma resp500_msg : serverErrMsg resp500.status resp500.statusText
    = "Server error 500: Internal Server Error" := by decide
lemma resp500_rethrow : p4Rethrow ⟨"Error", serverErrMsg resp500.status resp500.statusText⟩ = false := by decide

/-- Claim C2: given `maxRetries = N` and a transport that always answers with a
500-equivalent response, one logical `fetchWithRetry` call makes exactly
`N + 1` transport calls (the initial attempt plus `N` retries) and then
surfaces the HTTP-status failure for 500.  The solutions-document variant has
the `maxRetries` parameter and surfaces the 500 failure inside its
`Failed after N+1 attempts` error; the tutorial-guide variant counts total
attempts in its `retries` parameter, so `N` retries beyond the initial
attempt means `retries = N + 1`, which likewise yields `N + 1` transport
calls and the `HTTP 500` failure. -/
theorem claimC2_retry_bound (N base : Nat) :
    (fetchWithRetryP4 (constTransport resp500) N).calls = N + 1 ∧
    (fetchWithRetryP4 (constTransport resp500) N).result =
      Except.error ⟨"Error", "Failed after " ++ toString (N + 1) ++ " attempts: " ++
        "Server error 500: Internal Server Error"⟩ ∧
    (fetchWithRetryGuide (constTransport resp500) (N + 1) base).calls = N + 1 ∧
    (fetchWithRetryGuide (constTransport resp500) (N + 1) base).result =
      Except.error ⟨"Error", "HTTP 500"⟩ := by
  have hp4 := p4RetryGo_constServer resp500 resp500_ok resp500_cls resp500_rethrow N
    (N + 1) 0 0 [] none (by omega) (by omega)
  have hg := guideRetryGo_constFail resp500 resp500_ok (N + 1) (N + 1) 0 0 base []
    (by omega) (by omega)
  rw [show fetchWithRetryP4 (constTransport resp500) N
      = p4RetryGo (constTransport resp500) N (N + 1) 0 0 [] none from rfl, hp4]
  rw [show fetchWithRetryGuide (constTransport resp500) (N + 1) base
      = guideRetryGo (constTransport resp500) (N + 1) (N + 1) 0 0 base [] from rfl, hg]
  refine ⟨by simp, ?_, by simp, ?_⟩
  · rw [resp500_msg]
    rfl
  · have : "HTTP " ++ toString resp500.status = "HTTP 500" := by decide
    rw [this]

/-- Claim C4: for every configured base delay and every attempt number
`n ≥ 0`, the back-off delay before the `(n+1)`-th retry equals `base * 2^n`:
the delays actually waited form the list `[base, 2*base, 4*base, …]`.  In the
tutorial guide the base is the configurable `delay` parameter; the
solutions-document variant hard-codes its base, computing `2^attempt * 1000`,
which is the same law with `base = 1000`. -/
theorem claimC4_backoff (base r N : Nat) :
    (fetchWithRetryGuide (constTransport resp500) (r + 1) base).delays =
      (List.range r).map (fun n => base * 2 ^ n) ∧
    (fetchWithRetryP4 (constTransport resp500) N).delays =
      (List.range N).map (fun n => 2 ^ n * 1000) := by
  have hg := guideRetryGo_constFail resp500 resp500_ok (r + 1) (r + 1) 0 0 base []
    (by omega) (by omega)
  have hp4 := p4RetryGo_constServer resp500 resp500_ok resp500_cls resp500_rethrow N
    (N + 1) 0 0 [] none (by omega) (by omega)
  rw [show fetchWithRetryGuide (constTransport resp500) (r + 1) base
      = guideRetryGo (constTransport resp500) (r + 1) (r + 1) 0 0 base [] from rfl, hg]
  rw [show fetchWithRetryP4 (constTransport resp500) N
      = p4RetryGo (constTransport resp500) N (N + 1) 0 0 [] none from rfl, hp4]
  constructor
  · simp
  · simp [List.range_eq_range']

lemma resp404_ok : resp404.ok = false := by decide
lemma resp404_cls : (decide (400 ≤ resp404.status) && decide (resp404.status < 500)) = true := by decide
lemma resp404_msg : clientErrMsg resp404.status resp404.statusText
    = "Client error 404: Not Found" := by decide
lemma resp404_rethrow : p4Rethrow ⟨"Error", "Client error 404: Not Found"⟩ = true := by decide

/-- Claim C3, counterexample: the tutorial-guide `fetchWithRetry` (with its
default `retries = 3`, `delay = 1000`) retries a 404 response like any other
failure, making 3 transport calls — not the single call the claim asserts for
a transport returning 404. -/
theorem claimC3_counterexample :
    (fetchWithRetryGuide (constTransport resp404) 3 1000).calls = 3 ∧
    (fetchWithRetryGuide (constTransport resp404) 3 1000).calls ≠ 1 := by decide

/-- Claim C3, amended: the solutions-document `fetchWithRetry` never retries a
4xx — a transport returning 404 causes exactly one transport call, no
back-off delay, and an immediate `Client error 404` failure regardless of the
configured `maxRetries`; the tutorial-guide `fetchWithRetry`, by contrast,
retries every failure including 404, making `retries` transport calls in
total. -/
theorem claimC3_no_retry_4xx (N r base : Nat) (hr : 1 ≤ r) :
    (fetchWithRetryP4 (constTransport resp404) N).calls = 1 ∧
    (fetchWithRetryP4 (constTransport resp404) N).result =
      Except.error ⟨"Error", "Client error 404: Not Found"⟩ ∧
    (fetchWithRetryP4 (constTransport resp404) N).delays = [] ∧
    (fetchWithRetryGuide (constTransport resp404) r base).calls = r := by
  have hg := guideRetryGo_constFail resp404 resp404_ok r r 0 0 base [] hr (by omega)
  have hp4 : fetchWithRetryP4 (constTransport resp404) N =
      ⟨Except.error ⟨"Error", "Client error 404: Not Found"⟩, 1, []⟩ := by
    rw [show fetchWithRetryP4 (constTransport resp404) N
        = p4RetryGo (constTransport resp404) N (N + 1) 0 0 [] none from rfl]
    rw [p4RetryGo]
    simp only [constTransport, resp404_ok, Bool.false_eq_true, if_false, resp404_cls, if_true,
      resp404_rethrow, resp404_msg]
  rw [hp4]
  rw [show fetchWithRetryGuide (constTransport resp404) r base
      = guideRetryGo (constTransport resp404) r r 0 0 base [] from rfl, hg]
  refine ⟨rfl, rfl, rfl, by simp⟩

/-- Witness for `claimC3_no_retry_4xx` at `maxRetries = 5`, `retries = 3`,
`base = 1000`. -/
theorem claimC3_no_retry_4xx_witness :
    (fetchWithRetryP4 (constTransport resp404) 5).calls = 1 ∧
    (fetchWithRetryP4 (constTransport resp404) 5).result =
      Except.error ⟨"Error", "Client error 404: Not Found"⟩ ∧
    (fetchWithRetryP4 (constTransport resp404) 5).delays = [] ∧
    (fetchWithRetryGuide (constTransport resp404) 3 1000).calls = 3 :=
  claimC3_no_retry_4xx 5 3 1000 (by decide)

lemma strLength_zero_eq_empty (s : String) (h : s.length = 0) : s = "" := by
  cases s with
  | mk data =>
    cases data with
    | nil => rfl
    | cons c t => simp [String.length] at h

lemma append_ne_of_ne_empty (url oj : String) (h : oj ≠ "") : url ++ oj ≠ url := by
  intro hh
  apply h
  have hl := congrArg String.length hh
  rw [String.length_append] at hl
  exact strLength_zero_eq_empty oj (by omega)

lemma lookup_delKey_self {β : Type} (m : List (String × β)) (k : String) :
    (delKey m k).lookup k = none := by
  induction m with
  | nil => rfl
  | cons p t ih =>
    obtain ⟨pk, pv⟩ := p
    by_cases h : pk = k
    · simpa [delKey, List.filter_cons, h] using ih
    · have hne : (k == pk) = false := by simp [Ne.symm h]
      have hcond : (!(pk == k)) = true := by simp [h]
      simp only [delKey, List.filter_cons, hcond, if_true] at ih ⊢
      rw [List.lookup_cons]
      simp only [hne]
      exact ih

lemma lookup_delKey_ne {β : Type} (m : List (String × β)) (k k' : String) (h : ¬ k' = k) :
    (delKey m k).lookup k' = m.lookup k' := by
  induction m with
  | nil => rfl
  | cons p t ih =>
    obtain ⟨pk, pv⟩ := p
    by_cases hp : pk = k
    · have hne : (k' == pk) = false := by simp [hp, h]
      have hcond : (!(pk == k)) = false := by simp [hp]
      simp only [delKey, List.filter_cons, hcond, Bool.false_eq_true, if_false] at ih ⊢
      rw [ih, List.lookup_cons]
      simp [hne]
    · have hcond : (!(pk == k)) = true := by simp [hp]
      simp only [delKey, List.filter_cons, hcond, if_true] at ih ⊢
      rw [List.lookup_cons, List.lookup_cons]
      by_cases hk : k' = pk
      · simp [hk]
      · have : (k' == pk) = false := by simp [hk]
        simp only [this]
        exact ih

lemma lookup_mapset {β : Type} (m : List (String × β)) (k : String) (v : β)
    (h : (m.lookup k).isSome) :
    (m.map fun p => if p.1 == k then (k, v) else p).lookup k = some v := by
  induction m with
  | nil => simp [List.lookup] at h
  | cons p t ih =>
    obtain ⟨pk, pv⟩ := p
    by_cases hp : pk = k
    · subst hp
      simp [List.lookup_cons]
    · have hne : (k == pk) = false := by simp [Ne.symm hp]
      have hpk : (pk == k) = false := by simp [hp]
      rw [List.lookup_cons] at h
      simp only [hne] at h
      simp only [List.map_cons, hpk, Bool.false_eq_true, if_false]
      rw [List.lookup_cons]
      simp only [hne]
      exact ih h

lemma lookup_append_single {β : Type} (m : List (String × β)) (k : String) (v : β)
    (h : m.lookup k = none) :
    (m ++ [(k, v)]).lookup k = some v := by
  induction m with
  | nil => simp [List.lookup_cons]
  | cons p t ih =>
    obtain ⟨pk, pv⟩ := p
    rw [List.lookup_cons] at h
    rw [List.cons_append, List.lookup_cons]
    by_cases hk : k = pk
    · simp [hk] at h
    · have hne : (k == pk) = false := by simp [hk]
      simp only [hne] at h
      simp only [hne]
      exact ih h

lemma lookup_setKey_self {β : Type} (m : List (String × β)) (k : String) (v : β) :
    (setKey m k v).lookup k = some v := by
  unfold setKey
  by_cases h : (m.lookup k).isSome
  · simp only [h, if_true]
    exact lookup_mapset m k v h
  · simp only [h, Bool.false_eq_true, if_false]
    rw [Option.not_isSome_iff_eq_none] at h
    exact lookup_append_single m k v h

/-- Claim C5, counterexample: the tutorial-guide `RequestCache` does not
evict lazily.  An entry cached at time 0 with `ttl = 1000` is looked up at
time 1000: the lookup treats it as absent and invokes the transport, but when
that fresh transport call fails the state is exactly the pre-call state — the
expired entry is still in the cache map, so the lookup did not remove it. -/
theorem claimC5_counterexample :
    (RequestCache.fetchStep
        ((RequestCache.fetchStep ⟨[], 1000⟩ "u" "\x7b\x7d" 0 (Except.ok ⟨200, "OK", "d"⟩)).1)
        "u" "\x7b\x7d" 1000 (Except.error ⟨"TypeError", "Failed to fetch"⟩)) =
      ((RequestCache.fetchStep ⟨[], 1000⟩ "u" "\x7b\x7d" 0 (Except.ok ⟨200, "OK", "d"⟩)).1,
        Except.error ⟨"TypeError", "Failed to fetch"⟩, true) ∧
    ((RequestCache.fetchStep ⟨[], 1000⟩ "u" "\x7b\x7d" 0 (Except.ok ⟨200, "OK", "d"⟩)).1).cache.lookup
        (RequestCache.cacheKey "u" "\x7b\x7d") = some ⟨"d", 0⟩ := by decide

/-- Claim C5, amended: both caches treat an entry whose age has reached or
exceeded its `ttl` as absent and then perform a fresh transport call, and a
lookup strictly within the TTL returns the cached value with zero transport
calls and unchanged state — so an entry cached at `t0` with `ttl = T` is
never served once `now - t0 ≥ T`.  Lazy eviction, however, happens only in
the solutions-document `CachedFetch`, which deletes the expired entry during
the lookup (even when the fresh transport call fails) and re-stores the fresh
value on success; the guide's `RequestCache` merely bypasses the stale entry
(see `claimC5_counterexample`). -/
theorem claimC5_ttl_lazy_eviction :
    (∀ (c : CachedFetch) url options now transport entry,
      c.cache.lookup (CachedFetch.getCacheKey url options) = some entry →
      c.ttl ≤ now - entry.timestamp →
      (c.fetchStep url options now transport).2.2 = true ∧
      (∀ e, transport = Except.error e →
        (c.fetchStep url options now transport).1.cache.lookup
          (CachedFetch.getCacheKey url options) = none ∧
        (c.fetchStep url options now transport).2.1 = Except.error e) ∧
      (∀ resp, transport = Except.ok resp → resp.ok = true →
        (c.fetchStep url options now transport).1.cache.lookup
          (CachedFetch.getCacheKey url options) = some ⟨resp.body, now⟩)) ∧
    (∀ (c : CachedFetch) url options now transport entry,
      c.cache.lookup (CachedFetch.getCacheKey url options) = some entry →
      now - entry.timestamp < c.ttl →
      c.fetchStep url options now transport = (c, Except.ok entry.data, false)) ∧
    (∀ (c : RequestCache) url oj now transport entry,
      c.cache.lookup (RequestCache.cacheKey url oj) = some entry →
      c.ttl ≤ now - entry.timestamp →
      (c.fetchStep url oj now transport).2.2 = true) ∧
    (∀ (c : RequestCache) url oj now transport entry,
      c.cache.lookup (RequestCache.cacheKey url oj) = some entry →
      now - entry.timestamp < c.ttl →
      c.fetchStep url oj now transport = (c, Except.ok entry.data, false)) := by
  refine ⟨?_, ?_, ?_, ?_⟩
  · intro c url options now transport entry hl hexp
    have hvalid : c.isCacheValid now entry = false := by
      simp only [CachedFetch.isCacheValid, decide_eq_false_iff_not]
      omega
    simp only [CachedFetch.fetchStep, hl, hvalid, Bool.false_eq_true, if_false]
    refine ⟨?_, ?_, ?_⟩
    · cases transport with
      | error e => rfl
      | ok resp =>
        by_cases hok : resp.ok
        · simp [hok]
        · simp [hok]
    · intro e he
      subst he
      exact ⟨lookup_delKey_self c.cache _, rfl⟩
    · intro resp he hok
      subst he
      simp only [hok, if_true]
      exact lookup_setKey_self _ _ _
  · intro c url options now transport entry hl hfresh
    have hvalid : c.isCacheValid now entry = true := by
      simp only [CachedFetch.isCacheValid, decide_eq_true_eq]
      omega
    simp only [CachedFetch.fetchStep, hl, hvalid, if_true]
  · intro c url oj now transport entry hl hexp
    have hvalid : ¬ (now - entry.timestamp < c.ttl) := by omega
    simp only [RequestCache.fetchStep, hl, hvalid, if_false]
    cases transport with
    | error e => rfl
    | ok resp => rfl
  · intro c url oj now transport entry hl hfresh
    simp only [RequestCache.fetchStep, hl, hfresh, if_true]

/-- Witness for `claimC5_ttl_lazy_eviction` on a one-entry cache with
`ttl = 1000`, data stored at time 0, probed at times 1000, 999 and 500. -/
theorem claimC5_ttl_lazy_eviction_witness :
    ((CachedFetch.fetchStep ⟨[("GET:u:", ⟨"d", 0⟩)], 1000⟩ "u" ⟨none, none⟩ 1000
        (Except.error ⟨"TypeError", "Failed to fetch"⟩)).2.2 = true ∧
      (CachedFetch.fetchStep ⟨[("GET:u:", ⟨"d", 0⟩)], 1000⟩ "u" ⟨none, none⟩ 1000
        (Except.error ⟨"TypeError", "Failed to fetch"⟩)).1.cache.lookup
          (CachedFetch.getCacheKey "u" ⟨none, none⟩) = none) ∧
    (CachedFetch.fetchStep ⟨[("GET:u:", ⟨"d", 0⟩)], 1000⟩ "u" ⟨none, none⟩ 999
        (Except.error ⟨"TypeError", "Failed to fetch"⟩)) =
      (⟨[("GET:u:", ⟨"d", 0⟩)], 1000⟩, Except.ok "d", false) ∧
    (RequestCache.fetchStep ⟨[("u\x7b\x7d", ⟨"d", 0⟩)], 1000⟩ "u" "\x7b\x7d" 1000
        (Except.error ⟨"TypeError", "Failed to fetch"⟩)).2.2 = true ∧
    (RequestCache.fetchStep ⟨[("u\x7b\x7d", ⟨"d", 0⟩)], 1000⟩ "u" "\x7b\x7d" 500
        (Except.error ⟨"TypeError", "Failed to fetch"⟩)) =
      (⟨[("u\x7b\x7d", ⟨"d", 0⟩)], 1000⟩, Except.ok "d", false) := by
  have h := claimC5_ttl_lazy_eviction
  refine ⟨⟨?_, ?_⟩, ?_, ?_, ?_⟩
  · exact (h.1 ⟨[("GET:u:", ⟨"d", 0⟩)], 1000⟩ "u" ⟨none, none⟩ 1000
      (Except.error ⟨"TypeError", "Failed to fetch"⟩) ⟨"d", 0⟩ (by decide) (by decide)).1
  · exact ((h.1 ⟨[("GET:u:", ⟨"d", 0⟩)], 1000⟩ "u" ⟨none, none⟩ 1000
      (Except.error ⟨"TypeError", "Failed to fetch"⟩) ⟨"d", 0⟩ (by decide) (by decide)).2.1
      ⟨"TypeError", "Failed to fetch"⟩ rfl).1
  · exact h.2.1 ⟨[("GET:u:", ⟨"d", 0⟩)], 1000⟩ "u" ⟨none, none⟩ 999
      (Except.error ⟨"TypeError", "Failed to fetch"⟩) ⟨"d", 0⟩ (by decide) (by decide)
  · exact h.2.2.1 ⟨[("u\x7b\x7d", ⟨"d", 0⟩)], 1000⟩ "u" "\x7b\x7d" 1000
      (Except.error ⟨"TypeError", "Failed to fetch"⟩) ⟨"d", 0⟩ (by decide) (by decide)
  · exact h.2.2.2 ⟨[("u\x7b\x7d", ⟨"d", 0⟩)], 1000⟩ "u" "\x7b\x7d" 500
      (Except.error ⟨"TypeError", "Failed to fetch"⟩) ⟨"d", 0⟩ (by decide) (by decide)

/-- Claim C10: `RequestCache.delete(url)` never removes the entry stored by a
prior `RequestCache.fetch(url, options)`.  `fetch` stores under the composite
key `url + JSON.stringify(options)` (for the default empty options, `url`
followed by the two characters `\x7b\x7d`), while `delete` removes the bare
`url` key, so the stored entry's lookup is untouched by `delete` for every
cache state; and in the store-then-delete scenario the cache map is unchanged
by the `delete` and a subsequent `fetch` within the TTL still returns the
cached data with zero transport calls. -/
theorem claimC10_delete_other_key :
    (∀ (c : RequestCache) url oj, oj ≠ "" →
      (c.del url).cache.lookup (RequestCache.cacheKey url oj) =
        c.cache.lookup (RequestCache.cacheKey url oj)) ∧
    (∀ (ttl t0 t1 : Nat) url oj (resp : Response) (transport : FetchOutcome), oj ≠ "" →
      (reqCacheAfterStore ttl t0 url oj resp).cache =
        [(RequestCache.cacheKey url oj, ⟨resp.body, t0⟩)] ∧
      (reqCacheAfterStore ttl t0 url oj resp).del url = reqCacheAfterStore ttl t0 url oj resp ∧
      (t1 - t0 < ttl →
        ((reqCacheAfterStore ttl t0 url oj resp).del url).fetchStep url oj t1 transport =
          ((reqCacheAfterStore ttl t0 url oj resp).del url, Except.ok resp.body, false))) := by
  constructor
  · intro c url oj hoj
    exact lookup_delKey_ne c.cache url (RequestCache.cacheKey url oj)
      (append_ne_of_ne_empty url oj hoj)
  · intro ttl t0 t1 url oj resp transport hoj
    have hne : ¬ (RequestCache.cacheKey url oj) = url := append_ne_of_ne_empty url oj hoj
    have hcache : (reqCacheAfterStore ttl t0 url oj resp).cache =
        [(RequestCache.cacheKey url oj, ⟨resp.body, t0⟩)] := by
      simp [reqCacheAfterStore, RequestCache.fetchStep, setKey, List.lookup]
    have hdel : (reqCacheAfterStore ttl t0 url oj resp).del url =
        reqCacheAfterStore ttl t0 url oj resp := by
      have : delKey (reqCacheAfterStore ttl t0 url oj resp).cache url =
          (reqCacheAfterStore ttl t0 url oj resp).cache := by
        rw [hcache]
        simp [delKey, List.filter_cons, hne]
      simp [RequestCache.del, this]
    refine ⟨hcache, hdel, ?_⟩
    intro hfresh
    rw [hdel]
    have hl : (reqCacheAfterStore ttl t0 url oj resp).cache.lookup
        (RequestCache.cacheKey url oj) = some ⟨resp.body, t0⟩ := by
      rw [hcache]
      simp [List.lookup_cons]
    simp only [RequestCache.fetchStep, hl]
    have httl : (reqCacheAfterStore ttl t0 url oj resp).ttl = ttl := rfl
    rw [httl]
    simp only [hfresh, if_true]

/-- Witness for `claimC10_delete_other_key` at `url = "u"`, default options
(`JSON.stringify` giving `\x7b\x7d`), `ttl = 60000`, store at 0, probe at
1000. -/
theorem claimC10_delete_other_key_witness :
    ((RequestCache.del ⟨[("ab", ⟨"x", 0⟩)], 60000⟩ "a").cache.lookup
        (RequestCache.cacheKey "a" "b") =
      (⟨[("ab", ⟨"x", 0⟩)], 60000⟩ : RequestCache).cache.lookup (RequestCache.cacheKey "a" "b")) ∧
    (reqCacheAfterStore 60000 0 "u" "\x7b\x7d" ⟨200, "OK", "d"⟩).cache =
      [(RequestCache.cacheKey "u" "\x7b\x7d", ⟨"d", 0⟩)] ∧
    (reqCacheAfterStore 60000 0 "u" "\x7b\x7d" ⟨200, "OK", "d"⟩).del "u" =
      reqCacheAfterStore 60000 0 "u" "\x7b\x7d" ⟨200, "OK", "d"⟩ ∧
    (1000 - 0 < 60000 →
      ((reqCacheAfterStore 60000 0 "u" "\x7b\x7d" ⟨200, "OK", "d"⟩).del "u").fetchStep
          "u" "\x7b\x7d" 1000 (Except.error ⟨"TypeError", "Failed to fetch"⟩) =
        ((reqCacheAfterStore 60000 0 "u" "\x7b\x7d" ⟨200, "OK", "d"⟩).del "u",
          Except.ok "d", false)) :=
  ⟨(claimC10_delete_other_key.1 ⟨[("ab", ⟨"x", 0⟩)], 60000⟩ "a" "b" (by decide)),
    claimC10_delete_other_key.2 60000 0 1000 "u" "\x7b\x7d" ⟨200, "OK", "d"⟩
      (Except.error ⟨"TypeError", "Failed to fetch"⟩) (by decide)⟩

/-- Claim C7, counterexample: `AuthAPI._request` does not re-dispatch "exactly
once more".  With a transport answering 401, 401, then 200 and a refresh
endpoint that always succeeds, one logical call performs two
refresh-and-redispatch cycles (two refresh fetches, three dispatches) before
returning the success value — the recursion `return this._request(...)` is
unbounded, not a single extra attempt. -/
theorem claimC7_counterexample :
    (authRequest c7transport c7refresh 5 c7session).finalState.refreshFetches = 2 ∧
    (authRequest c7transport c7refresh 5 c7session).dispatches =
      [some "T0", some "T1", some "T2"] ∧
    (authRequest c7transport c7refresh 5 c7session).result = some (AuthResult.ok "v") ∧
    ¬ (authRequest c7transport c7refresh 5 c7session).finalState.refreshFetches = 1 := by
  decide

lemma requestGo_never_401 (transport refreshT : Nat → FetchOutcome) :
    ∀ fuel s ds t, (requestGo transport refreshT fuel s ds).result ≠
      some (AuthResult.httpError 401 t) := by
  intro fuel
  induction fuel with
  | zero => intro s ds t; simp [requestGo]
  | succ k ih =>
    intro s ds t
    rw [requestGo]
    cases htr : transport ds.length with
    | error e => simp
    | ok resp =>
      by_cases h401 : resp.status = 401
      · simp only [h401, if_true]
        cases hr : (refreshTokenRun { s with token := loadedToken s }
            (refreshT ({ s with token := loadedToken s } : AuthSession).refreshFetches)).2 with
        | ok v => simp only []; exact ih _ _ t
        | error e => simp
      · simp only [h401, if_false]
        by_cases hok : resp.ok
        · simp [hok]
        · simp only [hok, Bool.false_eq_true, if_false]
          simp [h401]

/-- Claim C7, amended: a 401 response is never surfaced raw — every
terminating run's result is something other than an HTTP-status failure with
code 401.  On a 401 the client refreshes and, if the refresh fails (non-ok
refresh response or refresh network error), propagates the refresh error as
the terminal outcome with the session logged out and no further dispatch; if
the refresh succeeds, it re-attaches the refreshed credential and
re-dispatches.  The re-dispatch is not limited to once: each further 401
triggers another refresh-and-redispatch cycle (see
`claimC7_counterexample`). -/
theorem claimC7_refresh_redispatch :
    (∀ (transport refreshT : Nat → FetchOutcome) fuel s t,
      (authRequest transport refreshT fuel s).result ≠ some (AuthResult.httpError 401 t)) ∧
    (∀ (transport refreshT : Nat → FetchOutcome) fuel s resp rresp,
      s.refreshPromise = none →
      resp.status = 401 → transport 0 = Except.ok resp →
      refreshT s.refreshFetches = Except.ok rresp → rresp.ok = false →
      authRequest transport refreshT (fuel + 1) s =
        ⟨⟨none, none, none, s.nextPromiseId + 1, s.refreshFetches + 1⟩,
          some (AuthResult.jsError ⟨"Error", "Token refresh failed"⟩), [loadedToken s]⟩) ∧
    (∀ (transport refreshT : Nat → FetchOutcome) fuel s resp e,
      s.refreshPromise = none →
      resp.status = 401 → transport 0 = Except.ok resp →
      refreshT s.refreshFetches = Except.error e →
      authRequest transport refreshT (fuel + 1) s =
        ⟨⟨none, none, none, s.nextPromiseId + 1, s.refreshFetches + 1⟩,
          some (AuthResult.jsError e), [loadedToken s]⟩) ∧
    (∀ (transport refreshT : Nat → FetchOutcome) fuel s resp fresh resp2,
      s.refreshPromise = none →
      resp.status = 401 → transport 0 = Except.ok resp →
      refreshT s.refreshFetches = Except.ok fresh → fresh.ok = true →
      transport 1 = Except.ok resp2 → ¬ resp2.status = 401 → resp2.ok = true →
      authRequest transport refreshT (fuel + 2) s =
        ⟨⟨some fresh.body, some fresh.body, none, s.nextPromiseId + 1, s.refreshFetches + 1⟩,
          some (AuthResult.ok resp2.body), [loadedToken s, some fresh.body]⟩) := by
  refine ⟨?_, ?_, ?_, ?_⟩
  · intro transport refreshT fuel s t
    exact requestGo_never_401 transport refreshT fuel s [] t
  · intro transport refreshT fuel s resp rresp hp h401 htr hrf hok
    rw [authRequest, requestGo]
    simp only [List.length_nil, htr, h401, if_true, refreshTokenRun, refreshEnter, hp,
      refreshSettle, hrf, hok, Bool.false_eq_true, if_false, AuthSession.logout,
      List.nil_append]
  · intro transport refreshT fuel s resp e hp h401 htr hrf
    rw [authRequest, requestGo]
    simp only [List.length_nil, htr, h401, if_true, refreshTokenRun, refreshEnter, hp,
      refreshSettle, hrf, AuthSession.logout, List.nil_append]
  · intro transport refreshT fuel s resp fresh resp2 hp h401 htr hrf hfok htr2 h401b hok2
    rw [authRequest, requestGo]
    simp only [List.length_nil, htr, h401, if_true, refreshTokenRun, refreshEnter, hp,
      refreshSettle, hrf, hfok, if_true]
    rw [requestGo]
    simp only [List.nil_append, List.length_cons, List.length_nil, Nat.zero_add, htr2, h401b,
      if_false, hok2, if_true, loadedToken, List.singleton_append]

/-- Witness for `claimC7_refresh_redispatch`: a 401 followed by a successful
refresh (`T1`) and a successful re-dispatch returning `v`. -/
theorem claimC7_refresh_redispatch_witness :
    authRequest c7transportB c7refresh 2 c7session =
      ⟨⟨some "T1", some "T1", none, 1, 1⟩, some (AuthResult.ok "v"),
        [some "T0", some "T1"]⟩ :=
  claimC7_refresh_redispatch.2.2.2 c7transportB c7refresh 0 c7session resp401
    ⟨200, "OK", "T1"⟩ ⟨200, "OK", "v"⟩ rfl rfl rfl rfl (by decide) rfl (by decide) (by decide)

lemma refreshEnterN_joined :
    ∀ (n : Nat) (s : AuthSession) (p : Nat), s.refreshPromise = some p →
      refreshEnterN n s = (s, List.replicate n p) := by
  intro n
  induction n with
  | zero => intro s p hp; rfl
  | succ k ih =>
    intro s p hp
    rw [refreshEnterN]
    simp only [refreshEnter, hp]
    rw [ih s p hp]
    rfl

/-- Claim C6: at most one token refresh is in flight at a time.  When `N + 1`
concurrent callers each hit a 401 and enter `_refreshToken` before the
refresh settles, exactly one refresh fetch is started, every caller holds the
same refresh promise (so every caller receives the same outcome, whatever
function of the promise outcome it observes); when the refresh settles
successfully all callers get the single refreshed token, stored in memory and
storage, and when it fails (non-ok response or network error) the session is
cleared via `logout()` and all callers receive the terminal refresh error;
the `finally` clears the pending promise on every path so a later 401 starts
afresh. -/
theorem claimC6_single_refresh (N : Nat) (s : AuthSession) (h : s.refreshPromise = none) :
    (refreshEnterN (N + 1) s).1.refreshFetches = s.refreshFetches + 1 ∧
    (refreshEnterN (N + 1) s).2 = List.replicate (N + 1) s.nextPromiseId ∧
    (refreshEnterN (N + 1) s).1.refreshPromise = some s.nextPromiseId ∧
    (∀ f : Nat → Except JsError String,
      (refreshEnterN (N + 1) s).2.map f = List.replicate (N + 1) (f s.nextPromiseId)) ∧
    (∀ resp : Response, resp.ok = true →
      refreshSettle (refreshEnterN (N + 1) s).1 (Except.ok resp) =
        ({ (refreshEnterN (N + 1) s).1 with
            token := some resp.body, storage := some resp.body, refreshPromise := none },
          Except.ok resp.body)) ∧
    (∀ resp : Response, resp.ok = false →
      refreshSettle (refreshEnterN (N + 1) s).1 (Except.ok resp) =
        ({ (refreshEnterN (N + 1) s).1 with
            token := none, storage := none, refreshPromise := none },
          Except.error ⟨"Error", "Token refresh failed"⟩)) ∧
    (∀ er : JsError,
      refreshSettle (refreshEnterN (N + 1) s).1 (Except.error er) =
        ({ (refreshEnterN (N + 1) s).1 with
            token := none, storage := none, refreshPromise := none },
          Except.error er)) := by
  have hstep : refreshEnterN (N + 1) s =
      ({ s with
          refreshPromise := some s.nextPromiseId,
          nextPromiseId := s.nextPromiseId + 1,
          refreshFetches := s.refreshFetches + 1 },
        List.replicate (N + 1) s.nextPromiseId) := by
    rw [refreshEnterN]
    simp only [refreshEnter, h]
    rw [refreshEnterN_joined N _ s.nextPromiseId rfl]
    rfl
  rw [hstep]
  refine ⟨rfl, rfl, rfl, ?_, ?_, ?_, ?_⟩
  · intro f
    simp [List.map_replicate]
  · intro resp hok
    simp [refreshSettle, hok]
  · intro resp hok
    simp [refreshSettle, hok, AuthSession.logout]
  · intro er
    simp [refreshSettle, AuthSession.logout]

/-- Witness for `claimC6_single_refresh`: three concurrent callers on a
logged-in session; one refresh fetch, shared promise id 0, and both a
successful and a failing settlement evaluated. -/
theorem claimC6_single_refresh_witness :
    (refreshEnterN 3 c7session).1.refreshFetches = 1 ∧
    (refreshEnterN 3 c7session).2 = [0, 0, 0] ∧
    refreshSettle (refreshEnterN 3 c7session).1 (Except.ok ⟨200, "OK", "T1"⟩) =
      (⟨some "T1", some "T1", none, 1, 1⟩, Except.ok "T1") ∧
    refreshSettle (refreshEnterN 3 c7session).1 (Except.ok ⟨500, "Internal Server Error", ""⟩) =
      (⟨none, none, none, 1, 1⟩, Except.error ⟨"Error", "Token refresh failed"⟩) :=
  ⟨(claimC6_single_refresh 2 c7session rfl).1,
    (claimC6_single_refresh 2 c7session rfl).2.1,
    (claimC6_single_refresh 2 c7session rfl).2.2.2.2.1 ⟨200, "OK", "T1"⟩ (by decide),
    (claimC6_single_refresh 2 c7session rfl).2.2.2.2.2.1 ⟨500, "Internal Server Error", ""⟩
      (by decide)⟩

lemma joinOrStartN_joined :
    ∀ (n : Nat) (r : DedupRegistry) (fp : String) (p : Nat),
      r.pending.lookup fp = some p →
      joinOrStartN n r fp = (r, List.replicate n p) := by
  intro n
  induction n with
  | zero => intro r fp p hp; rfl
  | succ k ih =>
    intro r fp p hp
    rw [joinOrStartN]
    simp only [joinOrStart, hp]
    rw [ih r fp p hp]
    rfl

/-- Claim C1: for `N + 1` concurrent calls with the same fingerprint issued
before the first settles, `startFn` (the underlying transport) is invoked
exactly once, every caller holds the same pending promise — hence observes
the same outcome, whatever function of the shared promise outcome it reads —
and once the operation settles the pending entry is removed, so a later call
with the same fingerprint starts a fresh request (a second `startFn`
invocation). -/
theorem claimC1_dedup (N : Nat) (r : DedupRegistry) (fp : String)
    (h : r.pending.lookup fp = none) :
    (joinOrStartN (N + 1) r fp).1.startCalls = r.startCalls + 1 ∧
    (joinOrStartN (N + 1) r fp).2 = List.replicate (N + 1) r.nextId ∧
    (∀ f : Nat → Except JsError String,
      (joinOrStartN (N + 1) r fp).2.map f = List.replicate (N + 1) (f r.nextId)) ∧
    (dedupSettle (joinOrStartN (N + 1) r fp).1 fp).pending.lookup fp = none ∧
    (joinOrStart (dedupSettle (joinOrStartN (N + 1) r fp).1 fp) fp).1.startCalls =
      r.startCalls + 2 := by
  have hstep : joinOrStartN (N + 1) r fp =
      ({ r with
          pending := setKey r.pending fp r.nextId,
          nextId := r.nextId + 1,
          startCalls := r.startCalls + 1 },
        List.replicate (N + 1) r.nextId) := by
    rw [joinOrStartN]
    simp only [joinOrStart, h]
    rw [joinOrStartN_joined N _ fp r.nextId (lookup_setKey_self _ _ _)]
    rfl
  rw [hstep]
  have hsettle : (dedupSettle
      ({ r with
          pending := setKey r.pending fp r.nextId,
          nextId := r.nextId + 1,
          startCalls := r.startCalls + 1 } : DedupRegistry) fp).pending.lookup fp = none :=
    lookup_delKey_self _ _
  refine ⟨rfl, rfl, ?_, hsettle, ?_⟩
  · intro f
    simp [List.map_replicate]
  · simp only [joinOrStart, dedupSettle] at hsettle ⊢
    rw [hsettle]

/-- Witness for `claimC1_dedup`: three concurrent callers on an empty
registry for the fingerprint `GET:/api/users:`. -/
theorem claimC1_dedup_witness :
    (joinOrStartN 3 ⟨[], 0, 0⟩ "GET:/api/users:").1.startCalls = 1 ∧
    (joinOrStartN 3 ⟨[], 0, 0⟩ "GET:/api/users:").2 = [0, 0, 0] ∧
    (dedupSettle (joinOrStartN 3 ⟨[], 0, 0⟩ "GET:/api/users:").1
      "GET:/api/users:").pending.lookup "GET:/api/users:" = none ∧
    (joinOrStart (dedupSettle (joinOrStartN 3 ⟨[], 0, 0⟩ "GET:/api/users:").1
      "GET:/api/users:") "GET:/api/users:").1.startCalls = 2 :=
  ⟨(claimC1_dedup 2 ⟨[], 0, 0⟩ "GET:/api/users:" rfl).1,
    (claimC1_dedup 2 ⟨[], 0, 0⟩ "GET:/api/users:" rfl).2.1,
    (claimC1_dedup 2 ⟨[], 0, 0⟩ "GET:/api/users:" rfl).2.2.2.1,
    (claimC1_dedup 2 ⟨[], 0, 0⟩ "GET:/api/users:" rfl).2.2.2.2⟩

/-- Claim C8, counterexample: a timer-driven abort in the guide's
`fetchWithTimeout` is surfaced as the unchanged generic `AbortError` — the
very error an explicit caller-initiated abort of a fetch produces — so the
caller cannot tell a timeout-kind error from a cancellation-kind one there;
and the guide's only caller-cancellation handler (`CancellableRequest`)
resolves an abort with `null` rather than any distinct cancellation-kind
error. -/
theorem claimC8_counterexample :
    fetchWithTimeout (Except.error abortError) = Except.error abortError ∧
    abortError.name = "AbortError" ∧
    cancellableFetch (Except.error abortError) = Except.ok none := by
  decide

lemma timeoutMsg_ne_httpMsg (s : Nat) (t : String) :
    ¬ ("Request timeout after 5 seconds" : String) =
      "HTTP Error " ++ toString s ++ ": " ++ t := by
  intro h
  have hd := congrArg String.data h
  rw [String.data_append, String.data_append, String.data_append] at hd
  have h1 : ("Request timeout after 5 seconds" : String).data
      = 'R' :: ("equest timeout after 5 seconds" : String).data := rfl
  have h2 : ("HTTP Error " : String).data = 'H' :: ("TTP Error " : String).data := rfl
  rw [h1, h2] at hd
  simp only [List.cons_append, List.append_assoc] at hd
  exact absurd (List.head_eq_of_cons_eq hd) (by decide)

/-- Claim C8, amended: the solutions-document `safeFetch` surfaces three
mutually distinguishable failure kinds — timeout (converted to
`Error: Request timeout after 5 seconds`), network failure (the `TypeError`
rethrown unchanged), and HTTP-status failure (`Error: HTTP Error status:
text`) — and the timeout error differs from every HTTP-status error and from
every `TypeError`-named network error.  Explicit caller cancellation is not
expressible through `safeFetch` (it overrides the caller's abort signal), and
in the guide's `fetchWithTimeout` the timer-driven abort surfaces as the raw
generic `AbortError`, so the claimed fourth, distinguishable
cancellation-kind outcome does not exist in the cited code. -/
theorem claimC8_error_kinds :
    safeFetch (Except.error abortError) =
      Except.error ⟨"Error", "Request timeout after 5 seconds"⟩ ∧
    (∀ e : JsError, ¬ e.name = "AbortError" → safeFetch (Except.error e) = Except.error e) ∧
    (∀ resp : Response, resp.ok = false →
      safeFetch (Except.ok resp) = Except.error
        ⟨"Error", "HTTP Error " ++ toString resp.status ++ ": " ++ resp.statusText⟩) ∧
    (∀ resp : Response, resp.ok = true → safeFetch (Except.ok resp) = Except.ok resp.body) ∧
    (∀ (s : Nat) (t : String), ¬ (⟨"Error", "Request timeout after 5 seconds"⟩ : JsError) =
      ⟨"Error", "HTTP Error " ++ toString s ++ ": " ++ t⟩) ∧
    (∀ e : JsError, e.name = "TypeError" →
      ¬ (⟨"Error", "Request timeout after 5 seconds"⟩ : JsError) = e) ∧
    fetchWithTimeout (Except.error abortError) = Except.error abortError := by
  refine ⟨by decide, ?_, ?_, ?_, ?_, ?_, rfl⟩
  · intro e he
    simp [safeFetch, he]
  · intro resp hok
    simp [safeFetch, hok]
  · intro resp hok
    simp [safeFetch, hok]
  · intro s t h
    rw [JsError.mk.injEq] at h
    exact timeoutMsg_ne_httpMsg s t h.2
  · intro e he h
    rw [← h] at he
    exact absurd he (by decide)

/-- Witness for `claimC8_error_kinds`: the abort, a network `TypeError`, and
a 404 response, with the resulting errors pairwise distinct. -/
theorem claimC8_error_kinds_witness :
    safeFetch (Except.error abortError) =
      Except.error ⟨"Error", "Request timeout after 5 seconds"⟩ ∧
    safeFetch (Except.error ⟨"TypeError", "Failed to fetch"⟩) =
      Except.error ⟨"TypeError", "Failed to fetch"⟩ ∧
    safeFetch (Except.ok ⟨404, "Not Found", ""⟩) =
      Except.error ⟨"Error", "HTTP Error " ++ toString 404 ++ ": " ++ "Not Found"⟩ ∧
    ¬ (⟨"Error", "Request timeout after 5 seconds"⟩ : JsError) =
      ⟨"Error", "HTTP Error " ++ toString 404 ++ ": " ++ "Not Found"⟩ ∧
    ¬ (⟨"Error", "Request timeout after 5 seconds"⟩ : JsError) =
      ⟨"TypeError", "Failed to fetch"⟩ :=
  ⟨claimC8_error_kinds.1,
    claimC8_error_kinds.2.1 ⟨"TypeError", "Failed to fetch"⟩ (by decide),
    claimC8_error_kinds.2.2.1 ⟨404, "Not Found", ""⟩ (by decide),
    claimC8_error_kinds.2.2.2.2.1 404 "Not Found",
    claimC8_error_kinds.2.2.2.2.2.1 ⟨"TypeError", "Failed to fetch"⟩ rfl⟩

/-- Claim C9: the challenge-template `fetchUserPostComments` derives `posts`
by calling `.json()` a second time on the already-consumed `userResponse`
instead of `postsResponse`, so the call never resolves with a `posts` field
at all — for every environment it lands in the catch block (with the
body-already-consumed `TypeError` wrapped once both fetches succeed) — while
the reference solution resolves with the posts list parsed from
`postsResponse`; in particular the template's returned `posts` never equals
the reference's. -/
theorem claimC9_stale_variable :
    (∀ (env : Endpoints) (r : UPC), ¬ fetchUserPostCommentsTemplate env = Except.ok r) ∧
    (∀ (env : Endpoints) (ur pr : Response),
      env.userR = Except.ok ur → ur.ok = true →
      env.postsR = Except.ok pr → pr.ok = true →
      fetchUserPostCommentsTemplate env =
        Except.error (seqFail bodyConsumedError.message)) ∧
    (∀ (env : Endpoints) (ur pr cr : Response),
      env.userR = Except.ok ur → ur.ok = true →
      env.postsR = Except.ok pr → pr.ok = true → ¬ pr.body = "[]" →
      env.commentsR = Except.ok cr → cr.ok = true →
      fetchUserPostCommentsSolution env = Except.ok ⟨ur.body, pr.body, cr.body⟩) := by
  refine ⟨?_, ?_, ?_⟩
  · intro env r
    unfold fetchUserPostCommentsTemplate
    cases env.userR with
    | error e => simp
    | ok ur =>
      by_cases hu : ur.ok
      · simp only [hu, Bool.not_true, Bool.false_eq_true, if_false]
        cases env.postsR with
        | error e => simp
        | ok pr =>
          by_cases hp : pr.ok
          · simp [hp]
          · simp [hp]
      · simp [hu]
  · intro env ur pr huser hu hposts hp
    unfold fetchUserPostCommentsTemplate
    rw [huser, hposts]
    simp [hu, hp]
  · intro env ur pr cr huser hu hposts hp hne hcomments hc
    unfold fetchUserPostCommentsSolution
    rw [huser, hposts, hcomments]
    simp [hu, hp, hc, hne]

/-- Witness for `claimC9_stale_variable` on an environment where all three
fetches succeed with bodies `u1`, `p1`, `c1`. -/
theorem claimC9_stale_variable_witness :
    ¬ fetchUserPostCommentsTemplate c9env = Except.ok ⟨"u1", "p1", "c1"⟩ ∧
    fetchUserPostCommentsTemplate c9env = Except.error (seqFail bodyConsumedError.message) ∧
    fetchUserPostCommentsSolution c9env = Except.ok ⟨"u1", "p1", "c1"⟩ :=
  ⟨claimC9_stale_variable.1 c9env ⟨"u1", "p1", "c1"⟩,
    claimC9_stale_variable.2.1 c9env ⟨200, "OK", "u1"⟩ ⟨200, "OK", "p1"⟩ rfl (by decide)
      rfl (by decide),
    claimC9_stale_variable.2.2 c9env ⟨200, "OK", "u1"⟩ ⟨200, "OK", "p1"⟩ ⟨200, "OK", "c1"⟩
      rfl (by decide) rfl (by decide) (by decide) rfl (by decide)⟩
